import Mathlib

/-!
Shallow embedding of `src/python/transcribe.py` (Whisper Dictation App,
transcription module) and verification of its natural-language specification.

The script is integration glue around an external speech-to-text library.
We model the external world by an explicit environment `Env`: the outcome of
attempting to load each third-party library, the file-existence predicate,
and the model-loading / inference oracles.  Python exceptions become an
explicit `Except PyExc` result; `sys.exit` and normal termination become an
explicit process exit code.  Writes to standard output are modelled as a
list of `OutLine` values: `OutLine.log` for lines emitted through the
logger (which is configured with a `StreamHandler` on `sys.stdout`, so its
lines share the payload stream) and `OutLine.payload` for the single
`json.dumps` result printed by `main`.  Log lines are abbreviated to their
message text (the real logger adds a timestamp prefix and, for
`logger.exception`, traceback lines; none of the claims depend on that
extra text, only on whether such lines exist).  External calls are recorded
in an event trace so that claims about which collaborator functions are
invoked, with which arguments, are provable.

Abstractions, stated once: segment timestamps are integers rather than
floating-point numbers (no claim inspects their values); the inference
result is a record already carrying the three fields the script reads; and
`json.dumps` keeps Python's default separators while its `ensure_ascii`
re-encoding of non-ASCII characters is not modelled (all strings appearing
in the claims are ASCII).
-/

namespace Transcribe

/-- A Python exception, as far as this script can distinguish one:
either an `ImportError` (the only type `check_dependencies` catches) or any
other `Exception`; each carries its `str` form. -/
inductive PyExc where
  | importError (msg : String)
  | otherError (msg : String)
deriving DecidableEq, Repr

/-- Python's `str(e)` on an exception: the carried message. -/
def PyExc.str : PyExc → String
  | PyExc.importError m => m
  | PyExc.otherError m => m

/-- One timed segment as returned by the inference library.  The script
never inspects segments; it passes the list through unchanged. -/
structure Segment where
  seg_id : Nat
  seg_start : Int
  seg_end : Int
  seg_text : String
deriving DecidableEq, Repr

/-- The record returned by `model.transcribe`: the three fields the script
reads out of the library's result dictionary. -/
structure TOutput where
  text : String
  segments : List Segment
  language : String
deriving DecidableEq, Repr

/-- A JSON-serialisable value appearing in the result dictionary. -/
inductive JValue where
  | str (s : String)
  | segs (l : List Segment)
deriving DecidableEq, Repr

/-- The result dictionary built by `transcribe_audio`: an ordered list of
key-value pairs, exactly as a Python dict literal lists them. -/
abbrev PyDict : Type := List (String × JValue)

/-- One line written to standard output: a logger line or the printed
JSON payload. -/
inductive OutLine where
  | log (s : String)
  | payload (s : String)
deriving DecidableEq, Repr

/-- Trace of calls into the external collaborators. -/
inductive Event where
  | import_attempt (lib : String)
  | exists_check (path : String)
  | load_model_call (name : String)
  | transcribe_call (path : String) (language : Option String) (fp16 : Bool)
deriving DecidableEq, Repr

/-- The external world as the script observes it: the outcome of each
third-party library load, the filesystem existence predicate, and the two
collaborator functions.  A model handle is an opaque natural number. -/
structure Env where
  whisper_import : Except PyExc Unit
  torch_import : Except PyExc Unit
  numpy_import : Except PyExc Unit
  path_exists : String → Bool
  load_model : String → Except PyExc Nat
  model_transcribe : Nat → String → Option String → Bool → Except PyExc TOutput

/-- Hexadecimal digit character, lower case, as Python's json module emits. -/
def hexDigitChar (n : Nat) : Char :=
  if n < 10 then Char.ofNat (48 + n) else Char.ofNat (87 + n)

/-- Escaping of one character inside a JSON string literal, following
`json.dumps`: quote, backslash, the common control escapes, and a
four-digit unicode escape for the remaining control characters. -/
def jsonEscapeChar (c : Char) : String :=
  if c = '"' then "\\\""
  else if c = '\\' then "\\\\"
  else if c = '\n' then "\\n"
  else if c = '\r' then "\\r"
  else if c = '\t' then "\\t"
  else if c.toNat < 32 then
    "\\u00" ++ String.singleton (hexDigitChar (c.toNat / 16))
      ++ String.singleton (hexDigitChar (c.toNat % 16))
  else String.singleton c

/-- Escape every character of a string for a JSON string literal. -/
def jsonEscape (s : String) : String :=
  String.join (s.data.map jsonEscapeChar)

/-- A JSON string literal. -/
def jstr (s : String) : String :=
  "\"" ++ jsonEscape s ++ "\""

/-- Serialisation of one segment object, with `json.dumps` default
separators. -/
def dumpSegment (g : Segment) : String :=
  "\x7b" ++ jstr "id" ++ ": " ++ toString g.seg_id ++ ", "
    ++ jstr "start" ++ ": " ++ toString g.seg_start ++ ", "
    ++ jstr "end" ++ ": " ++ toString g.seg_end ++ ", "
    ++ jstr "text" ++ ": " ++ jstr g.seg_text ++ "\x7d"

/-- Serialisation of the segment list. -/
def dumpSegments (l : List Segment) : String :=
  "[" ++ String.intercalate ", " (l.map dumpSegment) ++ "]"

/-- Serialisation of one dictionary value. -/
def dumpVal : JValue → String
  | JValue.str s => jstr s
  | JValue.segs l => dumpSegments l

/-- Serialisation of the dictionary entries, comma separated. -/
def dumpEntries (d : PyDict) : String :=
  String.intercalate ", " (d.map fun kv => jstr kv.fst ++ ": " ++ dumpVal kv.snd)

/-- `json.dumps` on a result dictionary (default separators, one line). -/
def dumps (d : PyDict) : String :=
  "\x7b" ++ dumpEntries d ++ "\x7d"

/-- The values accepted by the `--model` flag, in source order. -/
def modelChoices : List String := ["tiny", "base", "small", "medium", "large"]

/-- The command line as given: which of the three flags are present and
with what value. -/
structure Argv where
  audio_path : Option String
  model : Option String
  language : Option String
deriving DecidableEq, Repr

/-- The parsed arguments (`argparse.Namespace`) on successful parsing. -/
structure Args where
  audio_path : String
  model : String
  language : Option String
deriving DecidableEq, Repr

/-- `setup_argparse`: `--audio_path` is required; `--model` defaults to
"base" and must be one of `modelChoices`; `--language` defaults to `None`.
A violation makes argparse print usage to standard error and terminate the
process with a usage error, modelled as `Except.error ()`. -/
def setup_argparse (argv : Argv) : Except Unit Args :=
  match argv.audio_path with
  | none => Except.error ()
  | some p =>
    let m := (argv.model).getD "base"
    if modelChoices.contains m then
      Except.ok { audio_path := p, model := m, language := argv.language }
    else Except.error ()

/-- `check_dependencies`: attempt the three library loads in order; an
`ImportError` is caught, logged, and turns into `false`; any other
exception propagates; success of all three gives `true`.  Returns the
result together with the lines logged and the trace of attempted loads. -/
def check_dependencies (env : Env) : Except PyExc Bool × List OutLine × List Event :=
  match env.whisper_import with
  | Except.error (PyExc.importError m) =>
      (Except.ok false, [OutLine.log ("Missing dependency: " ++ m)],
        [Event.import_attempt "whisper"])
  | Except.error e => (Except.error e, [], [Event.import_attempt "whisper"])
  | Except.ok _ =>
    match env.torch_import with
    | Except.error (PyExc.importError m) =>
        (Except.ok false, [OutLine.log ("Missing dependency: " ++ m)],
          [Event.import_attempt "whisper", Event.import_attempt "torch"])
    | Except.error e =>
        (Except.error e, [], [Event.import_attempt "whisper", Event.import_attempt "torch"])
    | Except.ok _ =>
      match env.numpy_import with
      | Except.error (PyExc.importError m) =>
          (Except.ok false, [OutLine.log ("Missing dependency: " ++ m)],
            [Event.import_attempt "whisper", Event.import_attempt "torch",
              Event.import_attempt "numpy"])
      | Except.error e =>
          (Except.error e, [],
            [Event.import_attempt "whisper", Event.import_attempt "torch",
              Event.import_attempt "numpy"])
      | Except.ok _ =>
          (Except.ok true, [],
            [Event.import_attempt "whisper", Event.import_attempt "torch",
              Event.import_attempt "numpy"])

/-- The body of `transcribe_audio`'s `try` block: load the whisper library,
check the audio file exists (returning the file-not-found error dictionary
if not), load the model, run inference with `fp16=False`, and build the
success dictionary.  An exception anywhere escapes as `Except.error`. -/
def transcribe_body (env : Env) (audio_path : String) (model_name : String)
    (language : Option String) : Except PyExc PyDict × List OutLine × List Event :=
  match env.whisper_import with
  | Except.error e => (Except.error e, [], [Event.import_attempt "whisper"])
  | Except.ok _ =>
    if env.path_exists audio_path = false then
      (Except.ok [("error", JValue.str ("Audio file not found: " ++ audio_path))],
        [], [Event.import_attempt "whisper", Event.exists_check audio_path])
    else
      match env.load_model model_name with
      | Except.error e =>
          (Except.error e, [OutLine.log ("Loading Whisper model: " ++ model_name)],
            [Event.import_attempt "whisper", Event.exists_check audio_path,
              Event.load_model_call model_name])
      | Except.ok mdl =>
        match env.model_transcribe mdl audio_path language false with
        | Except.error e =>
            (Except.error e,
              [OutLine.log ("Loading Whisper model: " ++ model_name),
                OutLine.log ("Transcribing audio: " ++ audio_path)],
              [Event.import_attempt "whisper", Event.exists_check audio_path,
                Event.load_model_call model_name,
                Event.transcribe_call audio_path language false])
        | Except.ok r =>
            (Except.ok [("text", JValue.str r.text), ("segments", JValue.segs r.segments),
                ("language", JValue.str r.language)],
              [OutLine.log ("Loading Whisper model: " ++ model_name),
                OutLine.log ("Transcribing audio: " ++ audio_path)],
              [Event.import_attempt "whisper", Event.exists_check audio_path,
                Event.load_model_call model_name,
                Event.transcribe_call audio_path language false])

/-- `transcribe_audio`: the `try` body, with the `except Exception` clause
logging the failure and returning the error dictionary built from the
exception's `str` form.  The outer `Except` layer records whether the call
itself raises past its own boundary (the except clause means it never
does, which C9 proves). -/
def transcribe_audio (env : Env) (audio_path : String) (model_name : String)
    (language : Option String) : Except PyExc (PyDict × List OutLine × List Event) :=
  match transcribe_body env audio_path model_name language with
  | (Except.ok d, logs, evs) => Except.ok (d, logs, evs)
  | (Except.error e, logs, evs) =>
      Except.ok ([("error", JValue.str (PyExc.str e))],
        logs ++ [OutLine.log ("Transcription error: " ++ PyExc.str e)], evs)

/-- Observable outcome of one process run: standard output, exit code,
the external-call trace, and whether argparse reported a usage error on
standard error. -/
structure ProcResult where
  stdout : List OutLine
  exitCode : Nat
  events : List Event
  usage_error : Bool
deriving DecidableEq, Repr

/-- `main`: parse arguments (usage failure exits 2 before anything else);
missing dependencies print the fixed error dictionary and exit 1;
otherwise print `json.dumps` of `transcribe_audio`'s result and exit 0.
The top-level `except Exception` clause catches an exception escaping
`check_dependencies` or `transcribe_audio`, logs it, prints its error
dictionary, and exits 1.  (`sys.exit` raises `SystemExit`, which is not an
`Exception`, so the clause does not intercept the explicit exits.) -/
def main (env : Env) (argv : Argv) : ProcResult :=
  match setup_argparse argv with
  | Except.error _ => { stdout := [], exitCode := 2, events := [], usage_error := true }
  | Except.ok args =>
    match check_dependencies env with
    | (Except.ok false, logs, evs) =>
        { stdout := logs ++
            [OutLine.payload (dumps [("error", JValue.str "Missing required dependencies")])],
          exitCode := 1, events := evs, usage_error := false }
    | (Except.ok true, logs, evs) =>
        match transcribe_audio env args.audio_path args.model args.language with
        | Except.ok (d, logs2, evs2) =>
            { stdout := logs ++ logs2 ++ [OutLine.payload (dumps d)],
              exitCode := 0, events := evs ++ evs2, usage_error := false }
        | Except.error e =>
            { stdout := logs ++ [OutLine.log ("Unexpected error: " ++ PyExc.str e),
                OutLine.payload (dumps [("error", JValue.str (PyExc.str e))])],
              exitCode := 1, events := evs, usage_error := false }
    | (Except.error e, logs, evs) =>
        { stdout := logs ++ [OutLine.log ("Unexpected error: " ++ PyExc.str e),
            OutLine.payload (dumps [("error", JValue.str (PyExc.str e))])],
          exitCode := 1, events := evs, usage_error := false }

/-- The payload (printed JSON) lines among the standard-output lines. -/
def payloadLines (out : List OutLine) : List String :=
  out.filterMap fun l => match l with
    | OutLine.payload s => some s
    | OutLine.log _ => none

/-- The logger lines among the standard-output lines. -/
def logLines (out : List OutLine) : List String :=
  out.filterMap fun l => match l with
    | OutLine.log s => some s
    | OutLine.payload _ => none

/-- Whether an event is a call of the model-loading function. -/
def isLoadModelCall : Event → Bool
  | Event.load_model_call _ => true
  | _ => false

/-- Whether an event is a call of the inference function. -/
def isTranscribeCall : Event → Bool
  | Event.transcribe_call _ _ _ => true
  | _ => false

/-- Whether an event is a file-existence check. -/
def isExistsCheck : Event → Bool
  | Event.exists_check _ => true
  | _ => false

/-- All three library loads succeed. -/
def deps_ok (env : Env) : Prop :=
  env.whisper_import = Except.ok () ∧ env.torch_import = Except.ok () ∧
    env.numpy_import = Except.ok ()

/-- Some library load fails with an `ImportError` (earlier loads having
succeeded): the situation `check_dependencies` reports as `false`. -/
def missing_dependency (env : Env) : Prop :=
  (∃ m, env.whisper_import = Except.error (PyExc.importError m)) ∨
  (env.whisper_import = Except.ok () ∧
    ∃ m, env.torch_import = Except.error (PyExc.importError m)) ∨
  (env.whisper_import = Except.ok () ∧ env.torch_import = Except.ok () ∧
    ∃ m, env.numpy_import = Except.error (PyExc.importError m))

/-- Some library load raises an exception with message `msg` that is not
an `ImportError` (earlier loads having succeeded): the situation
`check_dependencies` does not catch, so the exception propagates to the
caller. -/
def import_crash (env : Env) (msg : String) : Prop :=
  env.whisper_import = Except.error (PyExc.otherError msg) ∨
  (env.whisper_import = Except.ok () ∧
    env.torch_import = Except.error (PyExc.otherError msg)) ∨
  (env.whisper_import = Except.ok () ∧ env.torch_import = Except.ok () ∧
    env.numpy_import = Except.error (PyExc.otherError msg))

/-! Concrete fixtures: small closed environments and command lines used to
exercise the definitions on each execution path. -/

/-- Fixture: a sample segment. -/
def seg0 : Segment := { seg_id := 0, seg_start := 0, seg_end := 2, seg_text := "hello" }

/-- Fixture: a sample inference result. -/
def out0 : TOutput := { text := "hello", segments := [seg0], language := "en" }

/-- Fixture: every external call succeeds. -/
def envOk : Env :=
  { whisper_import := Except.ok (), torch_import := Except.ok (),
    numpy_import := Except.ok (), path_exists := fun _ => true,
    load_model := fun _ => Except.ok 7,
    model_transcribe := fun _ _ _ _ => Except.ok out0 }

/-- Fixture: like `envOk` but no file exists on disk. -/
def envNoFile : Env := { envOk with path_exists := fun _ => false }

/-- Fixture: the whisper library is not installed, and additionally the
audio file does not exist. -/
def envDepsMissing : Env :=
  { envOk with
    whisper_import := Except.error (PyExc.importError "No module named whisper"),
    path_exists := fun _ => false }

/-- Fixture: model loading raises an exception. -/
def envLoadFail : Env :=
  { envOk with load_model := fun _ => Except.error (PyExc.otherError "boom") }

/-- Fixture: inference raises an exception. -/
def envInferFail : Env :=
  { envOk with model_transcribe := fun _ _ _ _ => Except.error (PyExc.otherError "bad audio") }

/-- Fixture: loading the whisper library raises an exception that is not an
`ImportError`. -/
def envImportCrash : Env :=
  { envOk with whisper_import := Except.error (PyExc.otherError "disk failure") }

/-- Fixture: whisper and torch load, numpy is not installed, and the audio
file does not exist. -/
def envNumpyMissing : Env :=
  { envOk with
    numpy_import := Except.error (PyExc.importError "No module named numpy"),
    path_exists := fun _ => false }

/-- Fixture: whisper loads, and loading the torch library raises an
exception that is not an `ImportError`. -/
def envTorchCrash : Env :=
  { envOk with torch_import := Except.error (PyExc.otherError "cuda init failed") }

/-- Fixture: the command line giving only the required audio path. -/
def argvStd : Argv := { audio_path := some "a.wav", model := none, language := none }

/-! Helper lemmas shared by the claim theorems. -/

/-- Inversion of a successful parse: the parsed fields are determined by
the command line, with the documented defaults. -/
lemma setup_argparse_ok (argv : Argv) (args : Args)
    (h : setup_argparse argv = Except.ok args) :
    argv.audio_path = some args.audio_path ∧ args.model = (argv.model).getD "base" ∧
      args.language = argv.language ∧ modelChoices.contains args.model = true := by
  cases hap : argv.audio_path with
  | none => rw [setup_argparse, hap] at h; cases h
  | some p =>
    rw [setup_argparse, hap] at h
    dsimp only at h
    split at h
    case isTrue hc =>
      injection h with h2
      subst h2
      exact ⟨rfl, rfl, rfl, hc⟩
    case isFalse hc => cases h

/-- Once parsing succeeds, the run prints exactly one payload line, and it
serialises a dictionary of one of the two result shapes. -/
lemma main_payload_shape (env : Env) (argv : Argv) (args : Args)
    (h : setup_argparse argv = Except.ok args) :
    ∃ d : PyDict, payloadLines (main env argv).stdout = [dumps d] ∧
      (d.map Prod.fst = ["text", "segments", "language"] ∨ d.map Prod.fst = ["error"]) := by
  cases hw : env.whisper_import with
  | error e =>
    cases e with
    | importError m =>
      exact ⟨[("error", JValue.str "Missing required dependencies")],
        by simp [main, h, check_dependencies, hw, payloadLines], Or.inr rfl⟩
    | otherError m =>
      exact ⟨[("error", JValue.str m)],
        by simp [main, h, check_dependencies, hw, payloadLines, PyExc.str], Or.inr rfl⟩
  | ok u =>
    cases u
    cases ht : env.torch_import with
    | error e =>
      cases e with
      | importError m =>
        exact ⟨[("error", JValue.str "Missing required dependencies")],
          by simp [main, h, check_dependencies, hw, ht, payloadLines], Or.inr rfl⟩
      | otherError m =>
        exact ⟨[("error", JValue.str m)],
          by simp [main, h, check_dependencies, hw, ht, payloadLines, PyExc.str], Or.inr rfl⟩
    | ok u2 =>
      cases u2
      cases hn : env.numpy_import with
      | error e =>
        cases e with
        | importError m =>
          exact ⟨[("error", JValue.str "Missing required dependencies")],
            by simp [main, h, check_dependencies, hw, ht, hn, payloadLines], Or.inr rfl⟩
        | otherError m =>
          exact ⟨[("error", JValue.str m)],
            by simp [main, h, check_dependencies, hw, ht, hn, payloadLines, PyExc.str], Or.inr rfl⟩
      | ok u3 =>
        cases u3
        cases hpe : env.path_exists args.audio_path with
        | false =>
          exact ⟨[("error", JValue.str ("Audio file not found: " ++ args.audio_path))],
            by simp [main, h, check_dependencies, hw, ht, hn, transcribe_audio,
              transcribe_body, hpe, payloadLines], Or.inr rfl⟩
        | true =>
          cases hlm : env.load_model args.model with
          | error e =>
            exact ⟨[("error", JValue.str (PyExc.str e))],
              by simp [main, h, check_dependencies, hw, ht, hn, transcribe_audio,
                transcribe_body, hpe, hlm, payloadLines], Or.inr rfl⟩
          | ok mdl =>
            cases hmt : env.model_transcribe mdl args.audio_path args.language false with
            | error e =>
              exact ⟨[("error", JValue.str (PyExc.str e))],
                by simp [main, h, check_dependencies, hw, ht, hn, transcribe_audio,
                  transcribe_body, hpe, hlm, hmt, payloadLines], Or.inr rfl⟩
            | ok r =>
              exact ⟨[("text", JValue.str r.text), ("segments", JValue.segs r.segments),
                  ("language", JValue.str r.language)],
                by simp [main, h, check_dependencies, hw, ht, hn, transcribe_audio,
                  transcribe_body, hpe, hlm, hmt, payloadLines], Or.inl rfl⟩

/-! The claims. -/

/-- Claim C1, counterexample: with the whisper library missing, standard
output is not just the single JSON payload line — the dependency-check
logger writes a line to the very same stream, so the stream carries more
than the JSON. -/
theorem C1_counterexample :
    logLines (main envDepsMissing argvStd).stdout ≠ [] ∧
    (main envDepsMissing argvStd).stdout ≠
      [OutLine.payload (dumps [("error", JValue.str "Missing required dependencies")])] := by
  constructor <;> decide

/-- Claim C1, amended: on every run that passes argument parsing (success,
input error, dependency error, runtime error), the process writes exactly
one payload line of serialised-dictionary JSON to standard output; logger
lines may additionally appear on that same stream. -/
theorem C1_single_json_payload (env : Env) (argv : Argv) (args : Args)
    (h : setup_argparse argv = Except.ok args) :
    ∃ d : PyDict, payloadLines (main env argv).stdout = [dumps d] := by
  obtain ⟨d, hd, -⟩ := main_payload_shape env argv args h
  exact ⟨d, hd⟩

/-- Claim C1, witness at a concrete successful run. -/
theorem C1_witness :
    ∃ d : PyDict, payloadLines (main envOk argvStd).stdout = [dumps d] :=
  C1_single_json_payload envOk argvStd
    { audio_path := "a.wav", model := "base", language := none } rfl

/-- Claim C2, counterexample: when model loading raises, the error JSON is
printed but the process exits with code 0, not 1. -/
theorem C2_counterexample :
    payloadLines (main envLoadFail argvStd).stdout =
      [dumps [("error", JValue.str "boom")]] ∧
    (main envLoadFail argvStd).exitCode ≠ 1 := by
  constructor <;> decide

/-- Claim C2, amended: for every exception raised during model loading or
inference, the program outputs the dictionary mapping "error" to the
exception's string form — and the process exits with code 0, because the
exception is absorbed inside transcribe_audio and main completes
normally. -/
theorem C2_runtime_error_output (env : Env) (argv : Argv) (args : Args) (e : PyExc)
    (hp : setup_argparse argv = Except.ok args)
    (hdeps : deps_ok env)
    (hex : env.path_exists args.audio_path = true)
    (hfail : env.load_model args.model = Except.error e ∨
      ∃ mdl, env.load_model args.model = Except.ok mdl ∧
        env.model_transcribe mdl args.audio_path args.language false = Except.error e) :
    payloadLines (main env argv).stdout = [dumps [("error", JValue.str (PyExc.str e))]] ∧
    (main env argv).exitCode = 0 := by
  obtain ⟨hw, ht, hn⟩ := hdeps
  rcases hfail with hlm | ⟨mdl, hlm, hmt⟩
  · simp [main, hp, check_dependencies, hw, ht, hn, transcribe_audio, transcribe_body,
      hex, hlm, payloadLines]
  · simp [main, hp, check_dependencies, hw, ht, hn, transcribe_audio, transcribe_body,
      hex, hlm, hmt, payloadLines]

/-- Claim C2, witness: a concrete run in which model loading raises. -/
theorem C2_witness :
    payloadLines (main envLoadFail argvStd).stdout =
      [dumps [("error", JValue.str "boom")]] ∧
    (main envLoadFail argvStd).exitCode = 0 :=
  C2_runtime_error_output envLoadFail argvStd
    { audio_path := "a.wav", model := "base", language := none }
    (PyExc.otherError "boom") rfl ⟨rfl, rfl, rfl⟩ rfl (Or.inl rfl)

/-- Claim C3: with dependencies present and a non-existent audio path P,
the run writes exactly the file-not-found error JSON for P (and nothing
else at all on standard output), never calls the model-loading function,
and exits with code 0. -/
theorem C3_file_not_found (env : Env) (argv : Argv) (args : Args) (P : String)
    (hP : argv.audio_path = some P)
    (hp : setup_argparse argv = Except.ok args)
    (hdeps : deps_ok env)
    (hex : env.path_exists P = false) :
    (main env argv).stdout =
      [OutLine.payload (dumps [("error", JValue.str ("Audio file not found: " ++ P))])] ∧
    (main env argv).events.any isLoadModelCall = false ∧
    (main env argv).exitCode = 0 := by
  obtain ⟨hw, ht, hn⟩ := hdeps
  have ha : args.audio_path = P := by
    obtain ⟨h1, -, -, -⟩ := setup_argparse_ok argv args hp
    rw [hP] at h1
    exact (Option.some_inj.mp h1).symm
  subst ha
  simp [main, hp, check_dependencies, hw, ht, hn, transcribe_audio, transcribe_body,
    hex, isLoadModelCall]

/-- Claim C3, witness: a concrete run with a missing file. -/
theorem C3_witness :
    (main envNoFile argvStd).stdout =
      [OutLine.payload (dumps [("error", JValue.str ("Audio file not found: " ++ "a.wav"))])] ∧
    (main envNoFile argvStd).events.any isLoadModelCall = false ∧
    (main envNoFile argvStd).exitCode = 0 :=
  C3_file_not_found envNoFile argvStd
    { audio_path := "a.wav", model := "base", language := none } "a.wav"
    rfl rfl ⟨rfl, rfl, rfl⟩ rfl

/-- Claim C4: when any of the three required libraries fails to load with
an ImportError, the JSON output is exactly the fixed dependency-error
dictionary, the process exits with code 1 (non-zero), and neither the
model-loading function nor the inference function is ever called. -/
theorem C4_missing_dependencies (env : Env) (argv : Argv) (args : Args)
    (hp : setup_argparse argv = Except.ok args)
    (hmd : missing_dependency env) :
    payloadLines (main env argv).stdout =
      [dumps [("error", JValue.str "Missing required dependencies")]] ∧
    (main env argv).exitCode = 1 ∧
    (main env argv).events.any isLoadModelCall = false ∧
    (main env argv).events.any isTranscribeCall = false := by
  rcases hmd with ⟨m, hw⟩ | ⟨hw, m, ht⟩ | ⟨hw, ht, m, hn⟩
  · simp [main, hp, check_dependencies, hw, payloadLines, isLoadModelCall, isTranscribeCall]
  · simp [main, hp, check_dependencies, hw, ht, payloadLines, isLoadModelCall, isTranscribeCall]
  · simp [main, hp, check_dependencies, hw, ht, hn, payloadLines, isLoadModelCall,
      isTranscribeCall]

/-- Claim C4, witness: a concrete run without the whisper library. -/
theorem C4_witness :
    payloadLines (main envDepsMissing argvStd).stdout =
      [dumps [("error", JValue.str "Missing required dependencies")]] ∧
    (main envDepsMissing argvStd).exitCode = 1 ∧
    (main envDepsMissing argvStd).events.any isLoadModelCall = false ∧
    (main envDepsMissing argvStd).events.any isTranscribeCall = false :=
  C4_missing_dependencies envDepsMissing argvStd
    { audio_path := "a.wav", model := "base", language := none } rfl
    (Or.inl ⟨"No module named whisper", rfl⟩)

/-- Claim C5: an exception raised during model loading or inference is
absorbed by transcribe_audio, which returns (does not raise) the
error-dictionary result, and main still prints exactly the corresponding
error JSON as its payload — no exception reaches the process boundary
uncaught. -/
theorem C5_no_uncaught_exception (env : Env) (argv : Argv) (args : Args) (e : PyExc)
    (hp : setup_argparse argv = Except.ok args)
    (hdeps : deps_ok env)
    (hex : env.path_exists args.audio_path = true)
    (hfail : env.load_model args.model = Except.error e ∨
      ∃ mdl, env.load_model args.model = Except.ok mdl ∧
        env.model_transcribe mdl args.audio_path args.language false = Except.error e) :
    (∃ logs evs, transcribe_audio env args.audio_path args.model args.language =
        Except.ok ([("error", JValue.str (PyExc.str e))], logs, evs)) ∧
    payloadLines (main env argv).stdout = [dumps [("error", JValue.str (PyExc.str e))]] := by
  obtain ⟨hw, ht, hn⟩ := hdeps
  rcases hfail with hlm | ⟨mdl, hlm, hmt⟩
  · constructor
    · exact ⟨[OutLine.log ("Loading Whisper model: " ++ args.model),
        OutLine.log ("Transcription error: " ++ PyExc.str e)],
        [Event.import_attempt "whisper", Event.exists_check args.audio_path,
          Event.load_model_call args.model],
        by simp [transcribe_audio, transcribe_body, hw, hex, hlm]⟩
    · simp [main, hp, check_dependencies, hw, ht, hn, transcribe_audio, transcribe_body,
        hex, hlm, payloadLines]
  · constructor
    · exact ⟨[OutLine.log ("Loading Whisper model: " ++ args.model),
        OutLine.log ("Transcribing audio: " ++ args.audio_path),
        OutLine.log ("Transcription error: " ++ PyExc.str e)],
        [Event.import_attempt "whisper", Event.exists_check args.audio_path,
          Event.load_model_call args.model,
          Event.transcribe_call args.audio_path args.language false],
        by simp [transcribe_audio, transcribe_body, hw, hex, hlm, hmt]⟩
    · simp [main, hp, check_dependencies, hw, ht, hn, transcribe_audio, transcribe_body,
        hex, hlm, hmt, payloadLines]

/-- Claim C5, witness: a concrete run in which inference raises. -/
theorem C5_witness :
    (∃ logs evs, transcribe_audio envInferFail "a.wav" "base" none =
        Except.ok ([("error", JValue.str (PyExc.str (PyExc.otherError "bad audio")))], logs, evs)) ∧
    payloadLines (main envInferFail argvStd).stdout =
      [dumps [("error", JValue.str (PyExc.str (PyExc.otherError "bad audio")))]] :=
  C5_no_uncaught_exception envInferFail argvStd
    { audio_path := "a.wav", model := "base", language := none }
    (PyExc.otherError "bad audio") rfl ⟨rfl, rfl, rfl⟩ rfl (Or.inr ⟨7, rfl, rfl⟩)

/-- Claim C6: every payload line the process ever prints is the
serialisation of a dictionary whose keys are exactly
text, segments, language (success shape) or exactly error (error shape);
no other shape is produced. -/
theorem C6_output_shapes (env : Env) (argv : Argv) (s : String)
    (hmem : OutLine.payload s ∈ (main env argv).stdout) :
    ∃ d : PyDict, s = dumps d ∧
      (d.map Prod.fst = ["text", "segments", "language"] ∨ d.map Prod.fst = ["error"]) := by
  cases hp : setup_argparse argv with
  | error u =>
    rw [main, hp] at hmem
    simp at hmem
  | ok args =>
    obtain ⟨d, hd, hshape⟩ := main_payload_shape env argv args hp
    have hs : s ∈ payloadLines (main env argv).stdout :=
      List.mem_filterMap.mpr ⟨OutLine.payload s, hmem, rfl⟩
    rw [hd] at hs
    exact ⟨d, (List.mem_singleton.mp hs), hshape⟩

/-- Claim C6, witness: the payload of a concrete missing-file run has the
error shape. -/
theorem C6_witness :
    ∃ d : PyDict, dumps [("error", JValue.str ("Audio file not found: " ++ "a.wav"))] = dumps d ∧
      (d.map Prod.fst = ["text", "segments", "language"] ∨ d.map Prod.fst = ["error"]) :=
  C6_output_shapes envNoFile argvStd _ (by decide)

/-- Claim C7: on the success path the model-loading function is called
with the selected model name, inference is called with the audio path, the
given language hint (None when the flag is absent) and fp16 set to false,
and the text, segments and language fields of its result are mapped
unchanged into the printed success dictionary; the run exits 0. -/
theorem C7_success_path (env : Env) (argv : Argv) (args : Args) (mdl : Nat) (r : TOutput)
    (hp : setup_argparse argv = Except.ok args)
    (hdeps : deps_ok env)
    (hex : env.path_exists args.audio_path = true)
    (hlm : env.load_model args.model = Except.ok mdl)
    (hmt : env.model_transcribe mdl args.audio_path args.language false = Except.ok r) :
    (main env argv).events =
      [Event.import_attempt "whisper", Event.import_attempt "torch",
        Event.import_attempt "numpy", Event.import_attempt "whisper",
        Event.exists_check args.audio_path, Event.load_model_call args.model,
        Event.transcribe_call args.audio_path args.language false] ∧
    payloadLines (main env argv).stdout =
      [dumps [("text", JValue.str r.text), ("segments", JValue.segs r.segments),
        ("language", JValue.str r.language)]] ∧
    (main env argv).exitCode = 0 ∧
    (argv.language = none → args.language = none) := by
  obtain ⟨hw, ht, hn⟩ := hdeps
  refine ⟨?_, ?_, ?_, ?_⟩
  · simp [main, hp, check_dependencies, hw, ht, hn, transcribe_audio, transcribe_body,
      hex, hlm, hmt]
  · simp [main, hp, check_dependencies, hw, ht, hn, transcribe_audio, transcribe_body,
      hex, hlm, hmt, payloadLines]
  · simp [main, hp, check_dependencies, hw, ht, hn, transcribe_audio, transcribe_body,
      hex, hlm, hmt]
  · intro hl
    obtain ⟨-, -, h3, -⟩ := setup_argparse_ok argv args hp
    rw [h3, hl]

/-- Claim C7, witness: a concrete fully-successful run. -/
theorem C7_witness :
    (main envOk argvStd).events =
      [Event.import_attempt "whisper", Event.import_attempt "torch",
        Event.import_attempt "numpy", Event.import_attempt "whisper",
        Event.exists_check "a.wav", Event.load_model_call "base",
        Event.transcribe_call "a.wav" none false] ∧
    payloadLines (main envOk argvStd).stdout =
      [dumps [("text", JValue.str out0.text), ("segments", JValue.segs out0.segments),
        ("language", JValue.str out0.language)]] ∧
    (main envOk argvStd).exitCode = 0 ∧
    (argvStd.language = none → (none : Option String) = none) :=
  C7_success_path envOk argvStd
    { audio_path := "a.wav", model := "base", language := none } 7 out0
    rfl ⟨rfl, rfl, rfl⟩ rfl rfl rfl

/-- Claim C8: a --model value outside the five allowed names makes
argument parsing fail, so the run exits with the usage status before any
dependency check or transcription logic (no events, no JSON payload);
when --model is omitted, parsing succeeds with model defaulted to
"base". -/
theorem C8_model_choice_validation (env : Env) (argv : Argv) :
    (∀ m, argv.model = some m → modelChoices.contains m = false →
      setup_argparse argv = Except.error () ∧ (main env argv).exitCode = 2 ∧
      (main env argv).events = [] ∧ payloadLines (main env argv).stdout = [] ∧
      (main env argv).usage_error = true) ∧
    (∀ p, argv.audio_path = some p → argv.model = none →
      setup_argparse argv =
        Except.ok { audio_path := p, model := "base", language := argv.language }) := by
  constructor
  · intro m hm hc
    have hpe : setup_argparse argv = Except.error () := by
      cases hap : argv.audio_path with
      | none => simp [setup_argparse, hap]
      | some p =>
        simp [setup_argparse, hap, hm]
        simpa using hc
    simp [main, hpe, payloadLines]
  · intro p hap hm
    simp [setup_argparse, hap, hm, modelChoices]

/-- Claim C8, witness: a rejected model name and the defaulting run. -/
theorem C8_witness :
    setup_argparse { audio_path := some "a.wav", model := some "huge", language := none } =
      Except.error () ∧
    setup_argparse { audio_path := some "a.wav", model := none, language := none } =
      Except.ok { audio_path := "a.wav", model := "base", language := none } :=
  ⟨((C8_model_choice_validation envOk
      { audio_path := some "a.wav", model := some "huge", language := none }).1
      "huge" rfl (by decide)).1,
    (C8_model_choice_validation envOk
      { audio_path := some "a.wav", model := none, language := none }).2 "a.wav" rfl rfl⟩

/-- Claim C9: transcribe_audio is total at its interface: whatever the
environment and arguments, it returns a dictionary result and never lets
an exception escape, because its body's failures are all absorbed by the
except clause. -/
theorem C9_transcribe_audio_total (env : Env) (audio_path model_name : String)
    (language : Option String) :
    ∃ d logs evs, transcribe_audio env audio_path model_name language =
      Except.ok (d, logs, evs) := by
  rcases hb : transcribe_body env audio_path model_name language with ⟨res, logs, evs⟩
  cases res with
  | ok d => exact ⟨d, logs, evs, by simp [transcribe_audio, hb]⟩
  | error e =>
    exact ⟨[("error", JValue.str (PyExc.str e))],
      logs ++ [OutLine.log ("Transcription error: " ++ PyExc.str e)], evs,
      by simp [transcribe_audio, hb]⟩

/-- Claim C10: the dependency check strictly precedes the file-existence
check: when any of the three libraries is missing (an ImportError), the
run reports the fixed dependency error and never performs an existence
check, whatever the filesystem says — so the file-not-found error cannot
be produced; and because check_dependencies catches only ImportError, an
exception of any other kind raised while loading any of the three
libraries reaches the top-level catch-all, which reports that exception's
own message and exits 1. -/
theorem C10_dependency_check_first (env : Env) (argv : Argv) (args : Args)
    (hp : setup_argparse argv = Except.ok args) :
    (missing_dependency env →
      payloadLines (main env argv).stdout =
        [dumps [("error", JValue.str "Missing required dependencies")]] ∧
      (main env argv).events.any isExistsCheck = false) ∧
    (∀ msg, import_crash env msg →
      payloadLines (main env argv).stdout = [dumps [("error", JValue.str msg)]] ∧
      (main env argv).exitCode = 1) := by
  constructor
  · rintro (⟨m, hw⟩ | ⟨hw, m, ht⟩ | ⟨hw, ht, m, hn⟩)
    · simp [main, hp, check_dependencies, hw, payloadLines, isExistsCheck]
    · simp [main, hp, check_dependencies, hw, ht, payloadLines, isExistsCheck]
    · simp [main, hp, check_dependencies, hw, ht, hn, payloadLines, isExistsCheck]
  · rintro msg (hw | ⟨hw, ht⟩ | ⟨hw, ht, hn⟩)
    · simp [main, hp, check_dependencies, hw, payloadLines, PyExc.str]
    · simp [main, hp, check_dependencies, hw, ht, payloadLines, PyExc.str]
    · simp [main, hp, check_dependencies, hw, ht, hn, payloadLines, PyExc.str]

/-- Claim C10, witness: a concrete numpy-missing run on a missing file,
and a concrete run whose torch import raises a non-ImportError. -/
theorem C10_witness :
    (payloadLines (main envNumpyMissing argvStd).stdout =
        [dumps [("error", JValue.str "Missing required dependencies")]] ∧
      (main envNumpyMissing argvStd).events.any isExistsCheck = false) ∧
    (payloadLines (main envTorchCrash argvStd).stdout =
        [dumps [("error", JValue.str "cuda init failed")]] ∧
      (main envTorchCrash argvStd).exitCode = 1) :=
  ⟨(C10_dependency_check_first envNumpyMissing argvStd
      { audio_path := "a.wav", model := "base", language := none } rfl).1
      (Or.inr (Or.inr ⟨rfl, rfl, "No module named numpy", rfl⟩)),
    (C10_dependency_check_first envTorchCrash argvStd
      { audio_path := "a.wav", model := "base", language := none } rfl).2
      "cuda init failed" (Or.inr (Or.inl ⟨rfl, rfl⟩))⟩

end Transcribe
